import Mathlib

/-!
Verification of the transport and session layer of the octofhir mcp-rs server.

The Rust sources are shallowly embedded: pure functions become Lean functions,
state mutation becomes explicit state passing, wall-clock instants become
natural numbers counting milliseconds, `Result`/fallible code becomes
`Except`/`Option`, and a Rust panic (an out-of-bounds slice, an unwind
through a middleware) is a dedicated constructor of the result type.
Machine integers are modelled as `Nat` with an explicit `% 2 ^ 64` where the
source performs wrapping atomic arithmetic.
-/

/-- A model of `serde_json::Value`.  Numbers are modelled as integers: every
numeric payload appearing in the claims (request ids, error codes) is
integral.  Object fields are an association list; `serde_json` keeps objects
in a key-ordered map, but no theorem below compares two serialized objects
whose field order differs, so the list representation is faithful for our
purposes. -/
inductive Json where
  | null : Json
  | bool (b : Bool) : Json
  | num (n : Int) : Json
  | str (s : String) : Json
  | arr (elems : List Json) : Json
  | obj (fields : List (String × Json)) : Json
deriving Repr

/-- Field lookup in a JSON object, as the derived serde deserializers do. -/
def Json.lookupField (fields : List (String × Json)) (key : String) : Option Json :=
  match fields with
  | [] => none
  | (k, v) :: rest => if k = key then some v else Json.lookupField rest key

/-! ### The MCP parameter structures of `src/transport/mod.rs` -/

/-- Rust struct `ToolsCapability { list_changed: Option<bool> }`. -/
structure ToolsCapability where
  list_changed : Option Bool
deriving Repr, DecidableEq

/-- Rust struct `ResourcesCapability { list_changed, subscribe: Option<bool> }`. -/
structure ResourcesCapability where
  list_changed : Option Bool
  subscribe : Option Bool
deriving Repr, DecidableEq

/-- Rust struct `PromptsCapability { list_changed: Option<bool> }`. -/
structure PromptsCapability where
  list_changed : Option Bool
deriving Repr, DecidableEq

/-- Rust unit struct `LoggingCapability`; serde serializes it as JSON `null`
and deserializes it only from `null`. -/
structure LoggingCapability where
deriving Repr, DecidableEq

/-- Rust struct `ClientCapabilities`. -/
structure ClientCapabilities where
  tools : Option ToolsCapability
  resources : Option ResourcesCapability
  prompts : Option PromptsCapability
  logging : Option LoggingCapability
deriving Repr, DecidableEq

/-- Rust struct `ClientInfo { name, version: String }`. -/
structure ClientInfo where
  name : String
  version : String
deriving Repr, DecidableEq

/-- Rust struct `InitializeParams`. -/
structure InitializeParams where
  protocol_version : String
  capabilities : ClientCapabilities
  client_info : ClientInfo
deriving Repr, DecidableEq

/-- Rust struct `ToolsCallParams { name: String, arguments: Option<Value> }`. -/
structure ToolsCallParams where
  name : String
  arguments : Option Json
deriving Repr

/-- Rust struct `McpError { code: i32, message: String, data: Option<Value> }`. -/
structure McpError where
  code : Int
  message : String
  data : Option Json
deriving Repr

/-! ### Serde serialization (`serde_json::to_value`) for the parameter structs

The derived `Serialize` impls emit every field; an `Option` field that is
`None` becomes an explicit JSON `null` (none of the structs carries
`skip_serializing_if`). -/

/-- Serialization of an optional field. -/
def optToValue (f : α → Json) : Option α → Json
  | none => Json.null
  | some a => f a

/-- Serde serialization of `ToolsCapability`. -/
def ToolsCapability.toValue (c : ToolsCapability) : Json :=
  Json.obj [("list_changed", optToValue Json.bool c.list_changed)]

/-- Serde serialization of `ResourcesCapability`. -/
def ResourcesCapability.toValue (c : ResourcesCapability) : Json :=
  Json.obj [("list_changed", optToValue Json.bool c.list_changed),
            ("subscribe", optToValue Json.bool c.subscribe)]

/-- Serde serialization of `PromptsCapability`. -/
def PromptsCapability.toValue (c : PromptsCapability) : Json :=
  Json.obj [("list_changed", optToValue Json.bool c.list_changed)]

/-- Serde serialization of the unit struct `LoggingCapability`: JSON `null`. -/
def LoggingCapability.toValue (_ : LoggingCapability) : Json :=
  Json.null

/-- Serde serialization of `ClientCapabilities`. -/
def ClientCapabilities.toValue (c : ClientCapabilities) : Json :=
  Json.obj [("tools", optToValue ToolsCapability.toValue c.tools),
            ("resources", optToValue ResourcesCapability.toValue c.resources),
            ("prompts", optToValue PromptsCapability.toValue c.prompts),
            ("logging", optToValue LoggingCapability.toValue c.logging)]

/-- Serde serialization of `ClientInfo`. -/
def ClientInfo.toValue (c : ClientInfo) : Json :=
  Json.obj [("name", Json.str c.name), ("version", Json.str c.version)]

/-- Serde serialization of `InitializeParams`. -/
def InitializeParams.toValue (p : InitializeParams) : Json :=
  Json.obj [("protocol_version", Json.str p.protocol_version),
            ("capabilities", p.capabilities.toValue),
            ("client_info", p.client_info.toValue)]

/-- Serde serialization of `ToolsCallParams`; an `Option<Value>` of
`Some v` serializes to `v` itself. -/
def ToolsCallParams.toValue (p : ToolsCallParams) : Json :=
  Json.obj [("name", Json.str p.name),
            ("arguments", p.arguments.getD Json.null)]

/-- Serde serialization of `McpError`. -/
def McpError.toValue (e : McpError) : Json :=
  Json.obj [("code", Json.num e.code),
            ("message", Json.str e.message),
            ("data", e.data.getD Json.null)]

/-! ### Serde deserialization (`serde_json::from_value`)

The derived `Deserialize` impls are modelled field by field: a missing or
`null` `Option` field is `None`; a missing required field is an error;
unknown fields are ignored (the derives carry no `deny_unknown_fields`).
Structs are deserialized from JSON objects (the JSON-array encoding of
structs that serde also accepts never arises on this wire format). -/

/-- Deserialization of a `bool`. -/
def parseBool : Json → Except String Bool
  | Json.bool b => Except.ok b
  | _ => Except.error "invalid type: expected a boolean"

/-- Deserialization of a `String`. -/
def parseString : Json → Except String String
  | Json.str s => Except.ok s
  | _ => Except.error "invalid type: expected a string"

/-- Deserialization of a `u64`. -/
def parseU64 : Json → Except String Nat
  | Json.num n => if 0 ≤ n then Except.ok n.toNat
                  else Except.error "invalid value: negative integer for u64"
  | _ => Except.error "invalid type: expected an unsigned integer"

/-- Deserialization of an `i32`. -/
def parseI32 : Json → Except String Int
  | Json.num n => if -2147483648 ≤ n ∧ n ≤ 2147483647 then Except.ok n
                  else Except.error "number out of range for i32"
  | _ => Except.error "invalid type: expected an integer"

/-- Deserialization of an `Option<T>` field: absent or `null` is `None`. -/
def parseOptField (fields : List (String × Json)) (key : String)
    (p : Json → Except String α) : Except String (Option α) :=
  match Json.lookupField fields key with
  | none => Except.ok none
  | some Json.null => Except.ok none
  | some v => (p v).map some

/-- Deserialization of a required field. -/
def parseReqField (fields : List (String × Json)) (key : String)
    (p : Json → Except String α) : Except String α :=
  match Json.lookupField fields key with
  | none => Except.error ("missing field " ++ key)
  | some v => p v

/-- Deserialization of an `Option<Value>` field: absent or `null` is `None`,
anything else is kept verbatim. -/
def parseOptValueField (fields : List (String × Json)) (key : String) :
    Option Json :=
  match Json.lookupField fields key with
  | none => none
  | some Json.null => none
  | some v => some v

/-- Serde deserialization of `ToolsCapability`. -/
def parseToolsCapability : Json → Except String ToolsCapability
  | Json.obj fields => (parseOptField fields "list_changed" parseBool).map
      (fun lc => { list_changed := lc })
  | _ => Except.error "invalid type: expected ToolsCapability object"

/-- Serde deserialization of `ResourcesCapability`. -/
def parseResourcesCapability : Json → Except String ResourcesCapability
  | Json.obj fields =>
      match parseOptField fields "list_changed" parseBool with
      | Except.error e => Except.error e
      | Except.ok lc =>
        match parseOptField fields "subscribe" parseBool with
        | Except.error e => Except.error e
        | Except.ok sub => Except.ok { list_changed := lc, subscribe := sub }
  | _ => Except.error "invalid type: expected ResourcesCapability object"

/-- Serde deserialization of `PromptsCapability`. -/
def parsePromptsCapability : Json → Except String PromptsCapability
  | Json.obj fields => (parseOptField fields "list_changed" parseBool).map
      (fun lc => { list_changed := lc })
  | _ => Except.error "invalid type: expected PromptsCapability object"

/-- Serde deserialization of the unit struct `LoggingCapability`: only the
JSON `null` is accepted.  Inside an `Option<LoggingCapability>` field the
`Option` deserializer consumes `null` first, so deserialization can never
produce `Some LoggingCapability`. -/
def parseLoggingCapability : Json → Except String LoggingCapability
  | Json.null => Except.ok {}
  | _ => Except.error "invalid type: expected null for LoggingCapability"

/-- Serde deserialization of `ClientCapabilities`. -/
def parseClientCapabilities : Json → Except String ClientCapabilities
  | Json.obj fields =>
      match parseOptField fields "tools" parseToolsCapability with
      | Except.error e => Except.error e
      | Except.ok t =>
        match parseOptField fields "resources" parseResourcesCapability with
        | Except.error e => Except.error e
        | Except.ok r =>
          match parseOptField fields "prompts" parsePromptsCapability with
          | Except.error e => Except.error e
          | Except.ok p =>
            match parseOptField fields "logging" parseLoggingCapability with
            | Except.error e => Except.error e
            | Except.ok l =>
                Except.ok { tools := t, resources := r, prompts := p, logging := l }
  | _ => Except.error "invalid type: expected ClientCapabilities object"

/-- Serde deserialization of `ClientInfo`. -/
def parseClientInfo : Json → Except String ClientInfo
  | Json.obj fields =>
      match parseReqField fields "name" parseString with
      | Except.error e => Except.error e
      | Except.ok n =>
        match parseReqField fields "version" parseString with
        | Except.error e => Except.error e
        | Except.ok v => Except.ok { name := n, version := v }
  | _ => Except.error "invalid type: expected ClientInfo object"

/-- Serde deserialization of `InitializeParams`. -/
def parseInitializeParams : Json → Except String InitializeParams
  | Json.obj fields =>
      match parseReqField fields "protocol_version" parseString with
      | Except.error e => Except.error e
      | Except.ok pv =>
        match parseReqField fields "capabilities" parseClientCapabilities with
        | Except.error e => Except.error e
        | Except.ok caps =>
          match parseReqField fields "client_info" parseClientInfo with
          | Except.error e => Except.error e
          | Except.ok ci =>
              Except.ok { protocol_version := pv, capabilities := caps,
                          client_info := ci }
  | _ => Except.error "invalid type: expected InitializeParams object"

/-- Serde deserialization of `ToolsCallParams`. -/
def parseToolsCallParams : Json → Except String ToolsCallParams
  | Json.obj fields =>
      match parseReqField fields "name" parseString with
      | Except.error e => Except.error e
      | Except.ok n =>
          Except.ok { name := n, arguments := parseOptValueField fields "arguments" }
  | _ => Except.error "invalid type: expected ToolsCallParams object"

/-- Serde deserialization of `McpError`. -/
def parseMcpError : Json → Except String McpError
  | Json.obj fields =>
      match parseReqField fields "code" parseI32 with
      | Except.error e => Except.error e
      | Except.ok c =>
        match parseReqField fields "message" parseString with
        | Except.error e => Except.error e
        | Except.ok m =>
            Except.ok { code := c, message := m,
                        data := parseOptValueField fields "data" }
  | _ => Except.error "invalid type: expected McpError object"

/-! ### The JSON-RPC envelope and the internal MCP message
(`src/transport/mod.rs`) -/

/-- Rust enum `JsonRpcMessage` (the `serde(untagged)` wire envelope). -/
inductive JsonRpcMessage where
  | Request (jsonrpc : String) (id : Option Nat) (method : String)
      (params : Option Json) : JsonRpcMessage
  | Response (jsonrpc : String) (id : Option Nat) (result : Option Json)
      (error : Option McpError) : JsonRpcMessage
  | Notification (jsonrpc : String) (method : String)
      (params : Option Json) : JsonRpcMessage
deriving Repr

/-- Rust enum `McpMessage` (the internal representation). -/
inductive McpMessage where
  | Initialize (id : Nat) (params : InitializeParams) : McpMessage
  | ToolsList (id : Nat) : McpMessage
  | ToolsCall (id : Nat) (params : ToolsCallParams) : McpMessage
  | Notification (method : String) (params : Option Json) : McpMessage
  | Response (id : Nat) (result : Option Json) (error : Option McpError) :
      McpMessage
deriving Repr

/-- Rust `McpMessage::to_jsonrpc`.  The source wraps the parameter structs
with `serde_json::to_value(..).ok()`, which never fails for these types, so
the `params` field is always `Some` of the serialized struct. -/
def McpMessage.to_jsonrpc : McpMessage → JsonRpcMessage
  | .Initialize id params =>
      .Request "2.0" (some id) "initialize" (some params.toValue)
  | .ToolsList id => .Request "2.0" (some id) "tools/list" none
  | .ToolsCall id params =>
      .Request "2.0" (some id) "tools/call" (some params.toValue)
  | .Notification method params => .Notification "2.0" method params
  | .Response id result error => .Response "2.0" (some id) result error

/-- Rust `McpMessage::from_jsonrpc`. -/
def McpMessage.from_jsonrpc : JsonRpcMessage → Except String McpMessage
  | .Request _ id method params =>
      match id with
      | none => Except.error "Missing request ID"
      | some id =>
        if method = "initialize" then
          match params with
          | some p => (parseInitializeParams p).map
              (fun ps => McpMessage.Initialize id ps)
          | none => Except.error "Missing initialize params"
        else if method = "tools/list" then
          Except.ok (McpMessage.ToolsList id)
        else if method = "tools/call" then
          match params with
          | some p => (parseToolsCallParams p).map
              (fun ps => McpMessage.ToolsCall id ps)
          | none => Except.error "Missing tool call params"
        else Except.error ("Unknown method: " ++ method)
  | .Response _ id result error =>
      match id with
      | none => Except.error "Missing response ID"
      | some id => Except.ok (McpMessage.Response id result error)
  | .Notification _ method params =>
      Except.ok (McpMessage.Notification method params)

/-- Character-level test that `pre` is an initial segment of `s`, modelling
Rust `str::starts_with` (the credentials and route paths involved are
ASCII, where Rust byte positions and characters agree).  The character-list
form is used because it is fully computable inside the kernel. -/
def strStarts (s pre : String) : Bool :=
  List.isPrefixOf pre.toList s.toList

/-- First `n` characters of `s`, modelling the Rust byte slice `&s[..n]`. -/
def strTake (s : String) (n : Nat) : String :=
  String.mk (s.toList.take n)

/-- All but the first `n` characters of `s`, modelling `&s[n..]` and
`str::strip_prefix` of an `n`-byte prefix. -/
def strDrop (s : String) (n : Nat) : String :=
  String.mk (s.toList.drop n)

/-! ### The authenticator of `src/security/auth.rs`

The JWT verification performed by the external `jsonwebtoken` crate
(`decode::<Claims>` with `Validation::default()`, i.e. signature and expiry
checking) is the one external collaborator here; it is modelled as an
explicit function argument `verify : String → String → Option Claims`
mapping a secret and a token to the validated claims, `none` meaning the
token is malformed, forged or expired.  Key and token strings are treated
as sequences of characters; the repository uses ASCII credentials, for
which Rust byte indices and character indices agree. -/

/-- Rust struct `Claims { sub, exp, iat, iss }`. -/
structure Claims where
  sub : String
  exp : Nat
  iat : Nat
  iss : String
deriving Repr, DecidableEq

/-- Rust enum `AuthMethod`. -/
inductive AuthMethod where
  | ApiKey (key : String) : AuthMethod
  | JwtToken (claims : Claims) : AuthMethod
  | Bypass : AuthMethod
deriving Repr, DecidableEq

/-- Rust struct `AuthenticatedRequest`; the randomly generated
`request_id: Uuid` is not modelled (no claim mentions it). -/
structure AuthenticatedRequest where
  authenticated_by : AuthMethod
  subject : String
deriving Repr, DecidableEq

/-- Rust struct `AuthConfig`; the `HashSet<String>` of keys is modelled as
the list of its elements. -/
structure AuthConfig where
  enable_auth : Bool
  api_keys : List String
  jwt_secret : Option String
  enable_request_logging : Bool
deriving Repr, DecidableEq

/-- Outcome of an authenticator call: success, an `anyhow` error, or a
panic (the byte-slice `&api_key[..8]` below is out of bounds for keys
shorter than eight bytes). -/
inductive AuthResult where
  | ok (r : AuthenticatedRequest) : AuthResult
  | err (msg : String) : AuthResult
  | panicked : AuthResult
deriving Repr, DecidableEq

/-- Rust `Authenticator::authenticate_api_key`.  With authentication
disabled every call succeeds with a Bypass identity; otherwise membership
in the configured key set decides, and the success path builds the subject
from `&api_key[..8]`, which panics for keys shorter than eight bytes. -/
def authenticate_api_key (config : AuthConfig) (api_key : String) : AuthResult :=
  if config.enable_auth = false then
    AuthResult.ok { authenticated_by := AuthMethod.Bypass, subject := "local" }
  else if config.api_keys.contains api_key then
    if api_key.length < 8 then AuthResult.panicked
    else AuthResult.ok { authenticated_by := AuthMethod.ApiKey api_key,
                         subject := "api_key:" ++ strTake api_key 8 }
  else AuthResult.err "Invalid API key"

/-- Rust `Authenticator::authenticate_jwt`. -/
def authenticate_jwt (verify : String → String → Option Claims)
    (config : AuthConfig) (token : String) : AuthResult :=
  if config.enable_auth = false then
    AuthResult.ok { authenticated_by := AuthMethod.Bypass, subject := "local" }
  else
    match config.jwt_secret with
    | none => AuthResult.err "JWT secret not configured"
    | some secret =>
      match verify secret token with
      | some claims =>
          AuthResult.ok { authenticated_by := AuthMethod.JwtToken claims,
                          subject := claims.sub }
      | none => AuthResult.err "JWT validation failed"

/-- Rust `Authenticator::parse_authorization_header`: strip the scheme
prefix `Bearer `, then dispatch on the token shape (`eyJ` marks a JWT). -/
def parse_authorization_header (verify : String → String → Option Claims)
    (config : AuthConfig) (auth_header : String) : AuthResult :=
  if strStarts auth_header "Bearer " then
    let bearer_token := strDrop auth_header 7
    if strStarts bearer_token "eyJ" then
      authenticate_jwt verify config bearer_token
    else
      authenticate_api_key config bearer_token
  else AuthResult.err "Invalid authorization header format"

/-! ### The SSE session manager of `src/transport/sse_auth.rs`

Wall-clock instants (`SystemTime`) are modelled as natural numbers counting
milliseconds; `Duration::as_secs()` becomes division by 1000.
`SystemTime::elapsed()` fails when the clock has moved backwards, i.e. when
the recorded instant lies in the future. -/

/-- Rust struct `SseAuthParams`. -/
structure SseAuthParams where
  client_id : Option String
  token : Option String
  api_key : Option String
  refresh_token : Option String
  timeout : Option Nat
deriving Repr, DecidableEq

/-- Rust struct `SseConnection`. -/
structure SseConnection where
  client_id : String
  authenticated_request : AuthenticatedRequest
  connection_time : Nat
  last_activity : Nat
  timeout_seconds : Nat
  supports_refresh : Bool
  refresh_token : Option String
deriving Repr, DecidableEq

/-- Rust `SseConnection::new`; `now` is the creation instant and the
timeout defaults to 3600 seconds (one hour). -/
def SseConnection.new (client_id : String)
    (authenticated_request : AuthenticatedRequest)
    (timeout_seconds : Option Nat) (refresh_token : Option String)
    (now : Nat) : SseConnection :=
  { client_id := client_id,
    authenticated_request := authenticated_request,
    connection_time := now,
    last_activity := now,
    timeout_seconds := timeout_seconds.getD 3600,
    supports_refresh := refresh_token.isSome,
    refresh_token := refresh_token }

/-- Rust `SseConnection::is_expired` at instant `now`: whole elapsed
seconds strictly above the timeout; an unreadable elapsed time (clock moved
backwards) counts as expired. -/
def SseConnection.is_expired (c : SseConnection) (now : Nat) : Bool :=
  if c.last_activity ≤ now then
    (now - c.last_activity) / 1000 > c.timeout_seconds
  else true

/-- Rust `SseConnection::update_activity` at instant `now`. -/
def SseConnection.update_activity (c : SseConnection) (now : Nat) :
    SseConnection :=
  { c with last_activity := now }

/-- Rust `SseConnection::time_until_expiry` at instant `now`, in whole
seconds. -/
def SseConnection.time_until_expiry (c : SseConnection) (now : Nat) :
    Option Nat :=
  if c.last_activity ≤ now then
    let elapsed_secs := (now - c.last_activity) / 1000
    if elapsed_secs < c.timeout_seconds then
      some (c.timeout_seconds - elapsed_secs)
    else none
  else none

/-- An SSE event as produced by `axum::response::sse::Event`: a named
event with a JSON data payload. -/
structure SseEvent where
  event : String
  data : Json
deriving Repr

/-- Rust `SseAuthenticator::create_auth_error_event`. -/
def create_auth_error_event (error : String) (client_id : String) : SseEvent :=
  { event := "auth_error",
    data := Json.obj
      [("type", Json.str "authentication_error"),
       ("client_id", Json.str client_id),
       ("error", Json.str error),
       ("reconnect_required", Json.bool true),
       ("instructions", Json.obj
         [("action", Json.str "reconnect_with_valid_credentials"),
          ("supported_methods", Json.arr
            [Json.str "Authorization header: Bearer <token>",
             Json.str "Query parameter: ?token=<jwt_token>",
             Json.str "Query parameter: ?api_key=<api_key>"])])] }

/-- Rust `SseAuthenticator::create_refresh_event` at instant `now`: only for
connections opened with a refresh token, and only within 300 seconds of
expiry. -/
def create_refresh_event (c : SseConnection) (now : Nat) : Option SseEvent :=
  if c.supports_refresh = false then none
  else
    match c.time_until_expiry now with
    | some time_left =>
      if time_left ≤ 300 then
        some { event := "token_refresh",
               data := Json.obj
                 [("type", Json.str "token_refresh_required"),
                  ("client_id", Json.str c.client_id),
                  ("expires_in_seconds", Json.num time_left),
                  ("refresh_token", optToValue Json.str c.refresh_token),
                  ("instructions", Json.obj
                    [("action", Json.str "refresh_connection"),
                     ("method", Json.str "reconnect_with_new_token"),
                     ("url_pattern",
                      Json.str "/sse?token=NEW_TOKEN&client_id=\x7b\x7d")])] }
      else none
    | none => none

/-- Rust `SseAuthenticator::validate_connection` at instant `now`: it first
touches the activity timestamp, then checks expiry (returning the terminal
`auth_error` event), then computes a possible refresh event whose value is
only logged.  The updated connection replaces the `&mut` argument. -/
def validate_connection (c : SseConnection) (now : Nat) :
    Except SseEvent SseConnection :=
  let c1 := c.update_activity now
  if c1.is_expired now then
    Except.error (create_auth_error_event
      "Connection expired. Please reconnect with valid credentials."
      c1.client_id)
  else
    match create_refresh_event c1 now with
    | some _ => Except.ok c1
    | none => Except.ok c1

/-- Rust `SseAuthenticator::extract_sse_params`; `str::parse::<u64>` is
modelled by the decimal parser `String.toNat?`. -/
def extract_sse_params (query : List (String × String)) : SseAuthParams :=
  { client_id := query.lookup "client_id",
    token := query.lookup "token",
    api_key := query.lookup "api_key",
    refresh_token := query.lookup "refresh_token",
    timeout := (query.lookup "timeout").bind String.toNat? }

/-- Rust `SseAuthenticator::try_header_auth`: the `Authorization` header
value, if present and readable, goes through
`parse_authorization_header`. -/
def try_header_auth (verify : String → String → Option Claims)
    (config : AuthConfig) (authorization : Option String) : AuthResult :=
  match authorization with
  | none => AuthResult.err "No Authorization header found"
  | some h => parse_authorization_header verify config h

/-- Rust `SseAuthenticator::try_query_auth`: a present `token` parameter is
authenticated as a JWT and its outcome is final; only in its absence is the
`api_key` parameter consulted. -/
def try_query_auth (verify : String → String → Option Claims)
    (config : AuthConfig) (params : SseAuthParams) : AuthResult :=
  match params.token with
  | some token => authenticate_jwt verify config token
  | none =>
    match params.api_key with
    | some api_key => authenticate_api_key config api_key
    | none => AuthResult.err "No valid authentication credentials in query parameters"

/-- Outcome of establishing an SSE connection: an authenticated connection,
an HTTP status rejection, or a propagated panic. -/
inductive SseAuthOutcome where
  | ok (c : SseConnection) : SseAuthOutcome
  | rejected (status : Nat) : SseAuthOutcome
  | panicked : SseAuthOutcome
deriving Repr, DecidableEq

/-- Rust `SseAuthenticator::authenticate_sse_connection` at instant `now`.
Header authentication is tried first; `or_else` falls through to query
authentication only on an error (a panic propagates).  Any remaining error
is mapped to HTTP 401; `generated_id` stands for the random
`Uuid::new_v4()` used when no `client_id` parameter is given. -/
def authenticate_sse_connection (verify : String → String → Option Claims)
    (config : AuthConfig) (authorization : Option String)
    (query : List (String × String)) (now : Nat) (generated_id : String) :
    SseAuthOutcome :=
  let sse_params := extract_sse_params query
  let client_id := sse_params.client_id.getD generated_id
  match (match try_header_auth verify config authorization with
         | AuthResult.ok r => AuthResult.ok r
         | AuthResult.err _ => try_query_auth verify config sse_params
         | AuthResult.panicked => AuthResult.panicked) with
  | AuthResult.ok ar =>
      SseAuthOutcome.ok (SseConnection.new client_id ar sse_params.timeout
        sse_params.refresh_token now)
  | AuthResult.err _ => SseAuthOutcome.rejected 401
  | AuthResult.panicked => SseAuthOutcome.panicked

/-- Result of running a middleware around a downstream handler of type
`ρ`. -/
inductive MiddlewareOutcome (ρ : Type) where
  | ok (r : ρ) : MiddlewareOutcome ρ
  | rejected (status : Nat) : MiddlewareOutcome ρ
  | panicked : MiddlewareOutcome ρ
deriving Repr

/-- Rust `handle_sse_authentication` (`src/transport/http.rs`): parse the
query string (failure is HTTP 400), authenticate, and only on success run
the downstream stream handler `next` on the request carrying the
authenticated connection; `query = none` models an unparseable query
string. -/
def handle_sse_authentication (verify : String → String → Option Claims)
    (config : AuthConfig) (authorization : Option String)
    (query : Option (List (String × String))) (now : Nat)
    (generated_id : String) (next : SseConnection → ρ) :
    MiddlewareOutcome ρ :=
  match query with
  | none => MiddlewareOutcome.rejected 400
  | some q =>
    match authenticate_sse_connection verify config authorization q now
        generated_id with
    | SseAuthOutcome.ok conn => MiddlewareOutcome.ok (next conn)
    | SseAuthOutcome.rejected status => MiddlewareOutcome.rejected status
    | SseAuthOutcome.panicked => MiddlewareOutcome.panicked


/-! ### The untagged wire envelope parser

`JsonRpcMessage` derives `serde(untagged)` `Deserialize`: the three
variants are tried in declaration order — Request, Response,
Notification — and the first that accepts the value wins. -/

/-- Untagged attempt at the `Request` variant. -/
def parseJsonRpcRequest (j : Json) : Except String JsonRpcMessage :=
  match j with
  | Json.obj fields =>
    match parseReqField fields "jsonrpc" parseString with
    | Except.error e => Except.error e
    | Except.ok jr =>
      match parseOptField fields "id" parseU64 with
      | Except.error e => Except.error e
      | Except.ok id =>
        match parseReqField fields "method" parseString with
        | Except.error e => Except.error e
        | Except.ok method =>
            Except.ok (JsonRpcMessage.Request jr id method
              (parseOptValueField fields "params"))
  | _ => Except.error "invalid type: expected a JSON-RPC object"

/-- Untagged attempt at the `Response` variant. -/
def parseJsonRpcResponse (j : Json) : Except String JsonRpcMessage :=
  match j with
  | Json.obj fields =>
    match parseReqField fields "jsonrpc" parseString with
    | Except.error e => Except.error e
    | Except.ok jr =>
      match parseOptField fields "id" parseU64 with
      | Except.error e => Except.error e
      | Except.ok id =>
        match parseOptField fields "error" parseMcpError with
        | Except.error e => Except.error e
        | Except.ok err =>
            Except.ok (JsonRpcMessage.Response jr id
              (parseOptValueField fields "result") err)
  | _ => Except.error "invalid type: expected a JSON-RPC object"

/-- Untagged attempt at the `Notification` variant. -/
def parseJsonRpcNotification (j : Json) : Except String JsonRpcMessage :=
  match j with
  | Json.obj fields =>
    match parseReqField fields "jsonrpc" parseString with
    | Except.error e => Except.error e
    | Except.ok jr =>
      match parseReqField fields "method" parseString with
      | Except.error e => Except.error e
      | Except.ok method =>
          Except.ok (JsonRpcMessage.Notification jr method
            (parseOptValueField fields "params"))
  | _ => Except.error "invalid type: expected a JSON-RPC object"

/-- The untagged deserializer for `JsonRpcMessage`. -/
def parseJsonRpcMessage (j : Json) : Except String JsonRpcMessage :=
  match parseJsonRpcRequest j with
  | Except.ok m => Except.ok m
  | Except.error _ =>
    match parseJsonRpcResponse j with
    | Except.ok m => Except.ok m
    | Except.error _ =>
      match parseJsonRpcNotification j with
      | Except.ok m => Except.ok m
      | Except.error _ =>
          Except.error "data did not match any variant of untagged enum JsonRpcMessage"

/-! ### The stdio transport of `src/transport/stdio.rs`

One line of standard input is represented by its read-and-parse outcome:
a whitespace-only line, a line that is not valid JSON (the string-level
`serde_json::from_str` failure), a line whose JSON parse produced the given
value, or an I/O read error.  End-of-input is the exhaustion of the input
list: every further `read_line` returns `Ok(0)`. -/

/-- One line of standard input. -/
inductive InputLine where
  | blank : InputLine
  | notJson : InputLine
  | jsonLine (j : Json) : InputLine
  | ioError : InputLine
deriving Repr

/-- Rust `StdioTransport::read_message` on one available line: empty lines
yield `Ok(None)`, JSON or translation failures are errors, and a line that
decodes and translates yields the message. -/
def read_message : InputLine → Except String (Option McpMessage)
  | InputLine.blank => Except.ok none
  | InputLine.notJson => Except.error "Failed to parse JSON-RPC message"
  | InputLine.ioError => Except.error "Failed to read from stdin"
  | InputLine.jsonLine j =>
    match parseJsonRpcMessage j with
    | Except.error e => Except.error e
    | Except.ok jsonrpc_message =>
      match McpMessage.from_jsonrpc jsonrpc_message with
      | Except.ok message => Except.ok (some message)
      | Except.error e => Except.error e

/-- Result of running the stdio processing loop for a bounded number of
iterations: either the loop exited its `loop` via `break` (after which
`process_messages` returns `Ok(())`), or the iteration budget ran out with
the loop still running.  In both cases the replies written so far are
collected. -/
inductive LoopResult where
  | finished (outputs : List McpMessage) : LoopResult
  | outOfFuel (outputs : List McpMessage) : LoopResult
deriving Repr

/-- Replies written during the run. -/
def LoopResult.outputs : LoopResult → List McpMessage
  | LoopResult.finished o => o
  | LoopResult.outOfFuel o => o

/-- Prepend one written reply to a run result. -/
def LoopResult.consOutput (r : McpMessage) : LoopResult → LoopResult
  | LoopResult.finished o => LoopResult.finished (r :: o)
  | LoopResult.outOfFuel o => LoopResult.outOfFuel (r :: o)

/-- Rust `StdioTransport::process_messages`, iterated for `fuel` loop
iterations over the remaining input.  The shutdown flag is read at the top
of each iteration; nothing inside the loop sets it, so it is a constant of
the run.  An exhausted input list is end-of-input: `read_line` returns
`Ok(0)`, `read_message` returns `Ok(None)`, and the loop body executes
`continue`.  A write failure is logged and ignored by the source, so every
generated reply is appended. -/
def process_messages (handler : McpMessage → Except String (Option McpMessage))
    (shutdown : Bool) : Nat → List InputLine → LoopResult
  | 0, _ => LoopResult.outOfFuel []
  | fuel + 1, input =>
    if shutdown then LoopResult.finished []
    else
      match input with
      | [] => process_messages handler shutdown fuel []
      | line :: rest =>
        match read_message line with
        | Except.ok (some message) =>
          match handler message with
          | Except.ok (some response) =>
              (process_messages handler shutdown fuel rest).consOutput response
          | Except.ok none => process_messages handler shutdown fuel rest
          | Except.error _ => process_messages handler shutdown fuel rest
        | Except.ok none => process_messages handler shutdown fuel rest
        | Except.error _ => process_messages handler shutdown fuel rest

/-! ### The health and metrics monitor of `src/metrics/health.rs` and
`src/metrics/mod.rs`

`f64` latency values are modelled as exact rationals (every comparison made
by the claims is far from any floating-point rounding boundary), `Instant`
values as natural numbers counting milliseconds.  The `u64` monotone
counters (`total_requests`, `error_count`) are modelled as unbounded
naturals — they grow by one per recorded request, so their `2 ^ 64` wrap is
unreachable — while the `usize` gauge `active_connections`, whose
`fetch_sub` CAN underflow, carries its explicit wrapping arithmetic. -/

/-- Rust struct `RequestMetrics`. -/
structure RequestMetrics where
  response_times : List ℚ
  error_count : Nat
  last_minute_requests : List Nat
deriving Repr, DecidableEq

/-- Rust `RequestMetrics::new`. -/
def RequestMetrics.new : RequestMetrics :=
  { response_times := [], error_count := 0, last_minute_requests := [] }

/-- Rust `RequestMetrics::add_request` at instant `now`: push the sample,
evict the oldest (`Vec::remove(0)`) when the window exceeds 1000, count the
error, and retain only the last minute of request timestamps
(`Instant` subtraction saturates at zero, as does `Nat` subtraction). -/
def RequestMetrics.add_request (m : RequestMetrics) (now : Nat)
    (response_time_ms : ℚ) (is_error : Bool) : RequestMetrics :=
  let response_times := m.response_times ++ [response_time_ms]
  let response_times :=
    if response_times.length > 1000 then response_times.drop 1
    else response_times
  let error_count :=
    if is_error then m.error_count + 1 else m.error_count
  let last_minute_requests :=
    (m.last_minute_requests ++ [now]).filter (fun t => now - t ≤ 60000)
  { response_times := response_times, error_count := error_count,
    last_minute_requests := last_minute_requests }

/-- Rust `RequestMetrics::error_rate_percent`: the CUMULATIVE error count
divided by the CURRENT window length. -/
def RequestMetrics.error_rate_percent (m : RequestMetrics) : ℚ :=
  if m.response_times.isEmpty then 0
  else (m.error_count : ℚ) / (m.response_times.length : ℚ) * 100

/-- Fold `add_request` over a sequence of `(now, latency_ms, is_error)`
requests. -/
def runRequests (m : RequestMetrics) : List (Nat × ℚ × Bool) → RequestMetrics
  | [] => m
  | a :: rest => runRequests (m.add_request a.1 a.2.1 a.2.2) rest

/-- The fields of `HealthMonitor` that record traffic. -/
structure HealthMonitorState where
  request_metrics : RequestMetrics
  total_requests : Nat
  active_connections : Nat
deriving Repr, DecidableEq

/-- Rust `HealthMonitor::record_request`. -/
def HealthMonitorState.record_request (s : HealthMonitorState) (now : Nat)
    (response_time_ms : ℚ) (is_error : Bool) : HealthMonitorState :=
  { s with total_requests := s.total_requests + 1,
           request_metrics :=
             s.request_metrics.add_request now response_time_ms is_error }

/-- Rust `HealthMonitor::increment_active_connections`
(`usize` `fetch_add(1)`, wrapping). -/
def HealthMonitorState.increment_active_connections (s : HealthMonitorState) :
    HealthMonitorState :=
  { s with active_connections := (s.active_connections + 1) % 2 ^ 64 }

/-- Rust `HealthMonitor::decrement_active_connections`
(`usize` `fetch_sub(1)`): subtraction of one wrapping modulo `2 ^ 64`,
written in branch form — on the `usize` value range `[0, 2 ^ 64)` this
coincides with `(a + (2 ^ 64 - 1)) % 2 ^ 64`, and zero wraps to
`2 ^ 64 - 1`. -/
def HealthMonitorState.decrement_active_connections (s : HealthMonitorState) :
    HealthMonitorState :=
  { s with active_connections :=
      if s.active_connections = 0 then 2 ^ 64 - 1
      else s.active_connections - 1 }

/-- The state behind `MetricsProvider`: the health monitor, the custom
metric registry (`HashMap<String, AtomicU64>` as an association list), and
the `enable_metrics` configuration flag consulted by every recording
method. -/
structure MetricsProviderState where
  health_monitor : HealthMonitorState
  custom_metrics : List (String × Nat)
  enable_metrics : Bool
deriving Repr, DecidableEq

/-- Rust `MetricsProvider::record_request` (gated on `enable_metrics`). -/
def MetricsProviderState.record_request (s : MetricsProviderState) (now : Nat)
    (response_time_ms : ℚ) (is_error : Bool) : MetricsProviderState :=
  if s.enable_metrics then
    { s with health_monitor :=
        s.health_monitor.record_request now response_time_ms is_error }
  else s

/-- Rust `MetricsProvider::increment_active_connections`. -/
def MetricsProviderState.increment_active_connections
    (s : MetricsProviderState) : MetricsProviderState :=
  if s.enable_metrics then
    { s with health_monitor := s.health_monitor.increment_active_connections }
  else s

/-- Rust `MetricsProvider::decrement_active_connections`. -/
def MetricsProviderState.decrement_active_connections
    (s : MetricsProviderState) : MetricsProviderState :=
  if s.enable_metrics then
    { s with health_monitor := s.health_monitor.decrement_active_connections }
  else s

/-- The `entry(name).or_insert(0).fetch_add(value)` update of the custom
metric registry (`AtomicU64` addition wraps modulo `2 ^ 64`). -/
def bumpCustomMetric (metrics : List (String × Nat)) (name : String)
    (value : Nat) : List (String × Nat) :=
  match metrics with
  | [] => [(name, value % 2 ^ 64)]
  | (k, v) :: rest =>
    if k = name then (k, (v + value) % 2 ^ 64) :: rest
    else (k, v) :: bumpCustomMetric rest name value

/-- Rust `MetricsProvider::increment_custom_metric`. -/
def MetricsProviderState.increment_custom_metric (s : MetricsProviderState)
    (name : String) (value : Nat) : MetricsProviderState :=
  if s.enable_metrics = false then s
  else { s with custom_metrics := bumpCustomMetric s.custom_metrics name value }

/-- An HTTP response, reduced to its status code. -/
structure HttpResponse where
  status : Nat
deriving Repr, DecidableEq

/-- Outcome of the downstream handler `next.run(request)`: a response, or a
panic unwinding through the middleware. -/
inductive HandlerOutcome where
  | ok (response : HttpResponse) : HandlerOutcome
  | panicked : HandlerOutcome
deriving Repr, DecidableEq

/-- Rust `response.status().is_client_error() || response.status().is_server_error()`:
a 4xx or 5xx status. -/
def status_is_error (status : Nat) : Bool :=
  decide ((400 ≤ status ∧ status ≤ 499) ∨ (500 ≤ status ∧ status ≤ 599))

/-- The per-tool custom-metric block of `metrics_middleware` (the
`path.starts_with("/mcp/tools/")` body, factored out verbatim): bump the
`tool_<name>_requests` counter and, for error responses, the
`tool_<name>_errors` counter. -/
def tool_metrics_custom (s : MetricsProviderState) (path : String)
    (is_error : Bool) : MetricsProviderState :=
  if strStarts path "/mcp/tools/" then
    let tool_name := strDrop path 11
    let s4a := s.increment_custom_metric ("tool_" ++ tool_name ++ "_requests") 1
    if is_error then
      s4a.increment_custom_metric ("tool_" ++ tool_name ++ "_errors") 1
    else s4a
  else s

/-- Rust `metrics_middleware` (`src/transport/http.rs`): increment the
active-connection gauge, run the inner handler, then — on the normal return
path only, since the source installs no scoped guard and a panic unwinds
straight through — record the timed sample (classifying 4xx/5xx as an
error), bump the per-tool custom metrics for `/mcp/tools/...` paths, and
decrement the gauge.  `elapsed_ms` is the measured wall-clock duration and
`now` the completion instant. -/
def metrics_middleware
    (next : MetricsProviderState → MetricsProviderState × HandlerOutcome)
    (elapsed_ms : ℚ) (now : Nat) (path : String)
    (s : MetricsProviderState) : MetricsProviderState × HandlerOutcome :=
  let s1 := s.increment_active_connections
  match next s1 with
  | (s2, HandlerOutcome.panicked) => (s2, HandlerOutcome.panicked)
  | (s2, HandlerOutcome.ok response) =>
    let is_error := status_is_error response.status
    let s3 := s2.record_request now elapsed_ms is_error
    let s4 := tool_metrics_custom s3 path is_error
    let s5 := s4.decrement_active_connections
    (s5, HandlerOutcome.ok response)


/-! ### Serde round-trip lemmas used for the protocol round-trip claim -/

/-- Round trip for `ClientInfo`. -/
theorem parseClientInfo_toValue (c : ClientInfo) :
    parseClientInfo c.toValue = Except.ok c := rfl

/-- Round trip for `ClientCapabilities` whose `logging` field is `None`
(serde deserialization can produce no other `logging` value, see
`parseClientCapabilities_logging_none`). -/
theorem parseClientCapabilities_toValue (c : ClientCapabilities)
    (h : c.logging = none) :
    parseClientCapabilities c.toValue = Except.ok c := by
  obtain ⟨t, r, p, l⟩ := c
  cases l with
  | some lg => exact absurd h (by simp)
  | none =>
    rcases t with _ | ⟨_ | b1⟩ <;> rcases r with _ | ⟨_ | b2, _ | b3⟩ <;>
      rcases p with _ | ⟨_ | b4⟩ <;> rfl

/-- Round trip for `InitializeParams` with no `logging` capability. -/
theorem parseInitializeParams_toValue (p : InitializeParams)
    (h : p.capabilities.logging = none) :
    parseInitializeParams p.toValue = Except.ok p := by
  obtain ⟨pv, caps, ci⟩ := p
  obtain ⟨t, r, pr, l⟩ := caps
  cases l with
  | some lg => exact absurd h (by simp)
  | none =>
    rcases t with _ | ⟨_ | b1⟩ <;> rcases r with _ | ⟨_ | b2, _ | b3⟩ <;>
      rcases pr with _ | ⟨_ | b4⟩ <;> rfl

/-- Round trip for `ToolsCallParams` whose `arguments` is not the explicit
JSON `null` (serde deserialization can produce no such value, see
`parseToolsCallParams_arguments_not_null`). -/
theorem parseToolsCallParams_toValue (p : ToolsCallParams)
    (h : p.arguments ≠ some Json.null) :
    parseToolsCallParams p.toValue = Except.ok p := by
  obtain ⟨n, args⟩ := p
  cases args with
  | none => rfl
  | some v => cases v with
    | null => exact absurd rfl h
    | bool b => rfl
    | num k => rfl
    | str s => rfl
    | arr l => rfl
    | obj fs => rfl

/-- Deserializing an `Option<LoggingCapability>` field can only yield
`None`: the `Option` deserializer maps `null` to `None`, and the unit
struct `LoggingCapability` accepts nothing but `null`. -/
theorem parseOptField_logging_none (fields : List (String × Json))
    (key : String) (o : Option LoggingCapability)
    (h : parseOptField fields key parseLoggingCapability = Except.ok o) :
    o = none := by
  unfold parseOptField at h
  rcases hl : Json.lookupField fields key with _ | v
  · rw [hl] at h
    exact (Except.ok.inj h).symm
  · rw [hl] at h
    cases v <;> simp [parseLoggingCapability, Except.map] at h
    exact h.symm

/-- Deserialization of `ClientCapabilities` always leaves `logging` empty. -/
theorem parseClientCapabilities_logging_none (j : Json)
    (c : ClientCapabilities) (h : parseClientCapabilities j = Except.ok c) :
    c.logging = none := by
  cases j <;> simp [parseClientCapabilities] at h
  case obj fields =>
  rcases ht : parseOptField fields "tools" parseToolsCapability with e | t <;>
    simp [ht] at h
  rcases hr : parseOptField fields "resources" parseResourcesCapability
      with e | r <;> simp [hr] at h
  rcases hp : parseOptField fields "prompts" parsePromptsCapability
      with e | p <;> simp [hp] at h
  rcases hlg : parseOptField fields "logging" parseLoggingCapability
      with e | l <;> simp [hlg] at h
  rw [← h]
  simpa using parseOptField_logging_none fields "logging" l hlg

/-- Deserialization of `InitializeParams` always leaves `logging` empty. -/
theorem parseInitializeParams_logging_none (j : Json) (p : InitializeParams)
    (h : parseInitializeParams j = Except.ok p) :
    p.capabilities.logging = none := by
  cases j <;> simp [parseInitializeParams] at h
  case obj fields =>
  rcases h1 : parseReqField fields "protocol_version" parseString with e | pv <;>
    simp [h1] at h
  rcases h2 : parseReqField fields "capabilities" parseClientCapabilities
      with e | caps <;> simp [h2] at h
  rcases h3 : parseReqField fields "client_info" parseClientInfo
      with e | ci <;> simp [h3] at h
  rw [← h]
  unfold parseReqField at h2
  rcases h4 : Json.lookupField fields "capabilities" with _ | v <;>
    rw [h4] at h2
  · exact absurd h2 (by simp)
  · simpa using parseClientCapabilities_logging_none v caps h2

/-- The verbatim `arguments` field of a deserialized `ToolsCallParams` is
never the explicit JSON `null`. -/
theorem parseToolsCallParams_arguments_not_null (j : Json)
    (p : ToolsCallParams) (h : parseToolsCallParams j = Except.ok p) :
    p.arguments ≠ some Json.null := by
  cases j <;> simp [parseToolsCallParams] at h
  case obj fields =>
  rcases h1 : parseReqField fields "name" parseString with e | n <;>
    simp [h1] at h
  rw [← h]
  show ({ name := n, arguments := parseOptValueField fields "arguments" } :
      ToolsCallParams).arguments ≠ some Json.null
  simp only []
  unfold parseOptValueField
  rcases h2 : Json.lookupField fields "arguments" with _ | v
  · simp
  · cases v <;> simp

/-! ### Claim C3: the protocol round-trip law -/

/-- Claim C3, counterexample: a well-formed `tools/list` request carrying a
`params` payload translates successfully, but converting the internal
message back drops the payload, so `to_jsonrpc (from_jsonrpc e)` is not `e`:
the round-trip law as stated fails. -/
theorem to_from_jsonrpc_counterexample :
    McpMessage.from_jsonrpc
        (JsonRpcMessage.Request "2.0" (some 1) "tools/list" (some (Json.num 7)))
      = Except.ok (McpMessage.ToolsList 1) ∧
    McpMessage.to_jsonrpc (McpMessage.ToolsList 1)
      ≠ JsonRpcMessage.Request "2.0" (some 1) "tools/list" (some (Json.num 7)) := by
  refine ⟨rfl, ?_⟩
  intro hEq
  simp [McpMessage.to_jsonrpc] at hEq

/-- Claim C3, amended: converting the translated message back yields an
envelope that translates to the same internal message — round trip holds up
to translation (and on the nose exactly for canonical envelopes, i.e. those
produced by `to_jsonrpc`): for every envelope `e` accepted by
`from_jsonrpc`, `from_jsonrpc (to_jsonrpc (from_jsonrpc e)) = from_jsonrpc e`. -/
theorem from_to_jsonrpc_roundtrip (e : JsonRpcMessage) (m : McpMessage)
    (h : McpMessage.from_jsonrpc e = Except.ok m) :
    McpMessage.from_jsonrpc (McpMessage.to_jsonrpc m) = Except.ok m := by
  cases e with
  | Request jsonrpc id method params =>
    cases id with
    | none => exact absurd h (by simp [McpMessage.from_jsonrpc])
    | some id =>
      by_cases hInit : method = "initialize"
      · subst hInit
        cases params with
        | none => exact absurd h (by simp [McpMessage.from_jsonrpc])
        | some p =>
          simp [McpMessage.from_jsonrpc] at h
          rcases hp : parseInitializeParams p with e1 | ps <;>
            simp [hp, Except.map] at h
          rw [← h]
          have hl : ps.capabilities.logging = none :=
            parseInitializeParams_logging_none p ps hp
          simp [McpMessage.to_jsonrpc, McpMessage.from_jsonrpc,
                parseInitializeParams_toValue ps hl, Except.map]
      · by_cases hList : method = "tools/list"
        · subst hList
          simp [McpMessage.from_jsonrpc] at h
          rw [← h]
          rfl
        · by_cases hCall : method = "tools/call"
          · subst hCall
            cases params with
            | none => exact absurd h (by simp [McpMessage.from_jsonrpc])
            | some p =>
              simp [McpMessage.from_jsonrpc] at h
              rcases hp : parseToolsCallParams p with e1 | ps <;>
                simp [hp, Except.map] at h
              rw [← h]
              have ha : ps.arguments ≠ some Json.null :=
                parseToolsCallParams_arguments_not_null p ps hp
              simp [McpMessage.to_jsonrpc, McpMessage.from_jsonrpc,
                    parseToolsCallParams_toValue ps ha, Except.map]
          · exact absurd h
              (by simp [McpMessage.from_jsonrpc, hInit, hList, hCall])
  | Response jsonrpc id result error =>
    cases id with
    | none => exact absurd h (by simp [McpMessage.from_jsonrpc])
    | some id =>
      simp [McpMessage.from_jsonrpc] at h
      rw [← h]
      rfl
  | Notification jsonrpc method params =>
    simp [McpMessage.from_jsonrpc] at h
    rw [← h]
    rfl

/-- Witness for `from_to_jsonrpc_roundtrip`: a concrete `initialize`
envelope that exercises the serde payload round trip. -/
theorem from_to_jsonrpc_roundtrip_witness :
    McpMessage.from_jsonrpc (McpMessage.to_jsonrpc
        (McpMessage.Initialize 3
          { protocol_version := "2024-11-05",
            capabilities := { tools := some { list_changed := some true },
                              resources := none, prompts := none,
                              logging := none },
            client_info := { name := "test-client", version := "1.0.0" } }))
      = Except.ok (McpMessage.Initialize 3
          { protocol_version := "2024-11-05",
            capabilities := { tools := some { list_changed := some true },
                              resources := none, prompts := none,
                              logging := none },
            client_info := { name := "test-client", version := "1.0.0" } }) := by
  apply from_to_jsonrpc_roundtrip
      (JsonRpcMessage.Request "2.0" (some 3) "initialize"
        (some (Json.obj
          [("protocol_version", Json.str "2024-11-05"),
           ("capabilities", Json.obj
             [("tools", Json.obj [("list_changed", Json.bool true)]),
              ("resources", Json.null), ("prompts", Json.null),
              ("logging", Json.null)]),
           ("client_info", Json.obj
             [("name", Json.str "test-client"),
              ("version", Json.str "1.0.0")])])))
  rfl

/-! ### Claim C1: expiry handling in the per-connection monitoring loop -/

/-- Claim C1 (code bug): `validate_connection` calls `update_activity`
before checking `is_expired`, which resets `last_activity` to the current
instant; the subsequent expiry check therefore always sees zero elapsed
time and succeeds.  Even a connection that is expired at the moment of the
periodic check is reported healthy: the terminal `auth_error` event is
never returned, the stream loop never breaks on expiry, and the expired
connection is kept open silently — contradicting the claim. -/
theorem validate_connection_never_reports_expiry (c : SseConnection)
    (now : Nat) (_hExpired : c.is_expired now = true) :
    validate_connection c now = Except.ok (c.update_activity now) := by
  unfold validate_connection
  have h1 : (c.update_activity now).is_expired now = false := by
    simp [SseConnection.update_activity, SseConnection.is_expired]
  simp only [h1, Bool.false_eq_true, if_false]
  cases create_refresh_event (c.update_activity now) now <;> rfl

/-- Witness for `validate_connection_never_reports_expiry`: a connection
with a one-second timeout whose last activity lies five seconds in the
past is expired, yet the periodic validation returns success instead of
the terminal error event. -/
theorem validate_connection_never_reports_expiry_witness :
    (SseConnection.new "client-1"
        { authenticated_by := AuthMethod.Bypass, subject := "test" }
        (some 1) none 0).is_expired 5000 = true ∧
    validate_connection
        (SseConnection.new "client-1"
          { authenticated_by := AuthMethod.Bypass, subject := "test" }
          (some 1) none 0) 5000
      = Except.ok ((SseConnection.new "client-1"
          { authenticated_by := AuthMethod.Bypass, subject := "test" }
          (some 1) none 0).update_activity 5000) := by
  refine ⟨rfl, ?_⟩
  exact validate_connection_never_reports_expiry _ 5000 rfl

/-! ### Claim C7: the expiry predicate -/

/-- Claim C7, counterexample: a connection created at instant 0 with
`timeout_seconds = 1` and no activity is NOT expired at 1500 ms elapsed,
although 1500 ms is strictly more than one second — `is_expired` compares
whole elapsed seconds (`Duration::as_secs` truncates), so the claim
"true at every elapsed time greater than 1 s" fails. -/
theorem is_expired_counterexample :
    1000 < 1500 ∧
    (SseConnection.new "client-2"
        { authenticated_by := AuthMethod.Bypass, subject := "test" }
        (some 1) none 0).is_expired 1500 = false := by
  exact ⟨by norm_num, rfl⟩

/-- Claim C7, amended: the default timeout is 3600 s, and a connection is
expired exactly when the number of WHOLE elapsed seconds (truncating
division of the elapsed milliseconds) strictly exceeds `timeout_seconds`;
in particular with `timeout_seconds = 1` and no activity it is expired
exactly at elapsed times of at least 2000 ms (so false below one second as
claimed, but also false anywhere in [1000 ms, 2000 ms)). -/
theorem is_expired_characterization :
    (∀ cid ar rt now,
      (SseConnection.new cid ar none rt now).timeout_seconds = 3600) ∧
    (∀ (c : SseConnection) (d : Nat),
      c.is_expired (c.last_activity + d)
        = decide (c.timeout_seconds < d / 1000)) ∧
    (∀ cid ar rt now d,
      (SseConnection.new cid ar (some 1) rt now).is_expired (now + d)
        = decide (2000 ≤ d)) := by
  refine ⟨fun cid ar rt now => rfl, ?_, ?_⟩
  · intro c d
    simp [SseConnection.is_expired, Nat.le_add_right, Nat.add_sub_cancel_left]
  · intro cid ar rt now d
    simp only [SseConnection.is_expired, SseConnection.new, Nat.le_add_right,
               if_true, Nat.add_sub_cancel_left, Option.getD]
    simp only [decide_eq_decide]
    omega

/-! ### Claim C5: SSE credential precedence -/

/-- Claim C5, counterexample: with no Authorization header, a present but
invalid `token` query parameter and a valid `api_key` query parameter, the
connection is rejected with 401 even though a credential source that would
succeed is present — `try_query_auth` makes the `token` outcome final and
never consults `api_key`, so "the first source to succeed determines the
identity" fails as stated. -/
theorem sse_auth_order_counterexample :
    authenticate_sse_connection (fun _ _ => none)
        { enable_auth := true, api_keys := ["valid-api-key-1"],
          jwt_secret := some "secret", enable_request_logging := true }
        none [("token", "not-a-valid-jwt"), ("api_key", "valid-api-key-1")]
        0 "gen"
      = SseAuthOutcome.rejected 401 ∧
    authenticate_api_key
        { enable_auth := true, api_keys := ["valid-api-key-1"],
          jwt_secret := some "secret", enable_request_logging := true }
        "valid-api-key-1"
      = AuthResult.ok { authenticated_by := AuthMethod.ApiKey "valid-api-key-1",
                        subject := "api_key:valid-ap" } := by
  exact ⟨rfl, rfl⟩

/-- Claim C5, amended: the Authorization header is tried first and a header
success determines the identity (header wins over any query credential);
on header failure query authentication runs, where a present `token`
parameter is decisive — its success wins, its failure rejects with 401
even when a valid `api_key` is also present — and only in the absence of
`token` is `api_key` consulted; when the consulted sources all fail the
request is rejected with HTTP 401 without ever invoking the downstream
stream handler. -/
theorem sse_auth_precedence :
    (∀ verify config auth query now gid r,
      try_header_auth verify config auth = AuthResult.ok r →
      authenticate_sse_connection verify config auth query now gid
        = SseAuthOutcome.ok (SseConnection.new
            ((extract_sse_params query).client_id.getD gid) r
            (extract_sse_params query).timeout
            (extract_sse_params query).refresh_token now)) ∧
    (∀ verify config auth query now gid msg r,
      try_header_auth verify config auth = AuthResult.err msg →
      try_query_auth verify config (extract_sse_params query)
          = AuthResult.ok r →
      authenticate_sse_connection verify config auth query now gid
        = SseAuthOutcome.ok (SseConnection.new
            ((extract_sse_params query).client_id.getD gid) r
            (extract_sse_params query).timeout
            (extract_sse_params query).refresh_token now)) ∧
    (∀ verify config auth query now gid msg1 msg2,
      try_header_auth verify config auth = AuthResult.err msg1 →
      try_query_auth verify config (extract_sse_params query)
          = AuthResult.err msg2 →
      authenticate_sse_connection verify config auth query now gid
        = SseAuthOutcome.rejected 401) ∧
    (∀ (ρ : Type) (next : SseConnection → ρ)
        verify config auth query now gid msg1 msg2,
      try_header_auth verify config auth = AuthResult.err msg1 →
      try_query_auth verify config (extract_sse_params query)
          = AuthResult.err msg2 →
      handle_sse_authentication verify config auth (some query) now gid next
        = MiddlewareOutcome.rejected 401) := by
  refine ⟨?_, ?_, ?_, ?_⟩
  · intro verify config auth query now gid r h
    unfold authenticate_sse_connection
    simp only [h]
  · intro verify config auth query now gid msg r h1 h2
    unfold authenticate_sse_connection
    simp only [h1, h2]
  · intro verify config auth query now gid msg1 msg2 h1 h2
    unfold authenticate_sse_connection
    simp only [h1, h2]
  · intro ρ next verify config auth query now gid msg1 msg2 h1 h2
    unfold handle_sse_authentication authenticate_sse_connection
    simp only [h1, h2]

/-- Witness for `sse_auth_precedence`, covering the two scenarios named by
the specification: a valid header together with a valid query token yields
the header identity, and a valid `api_key` as the only credential
succeeds; a third instance has every source failing and shows the 401. -/
theorem sse_auth_precedence_witness :
    authenticate_sse_connection
        (fun s t => if s = "secret" ∧ t = "eyJgood" then
            some { sub := "alice", exp := 99, iat := 1, iss := "iss" }
          else none)
        { enable_auth := true, api_keys := ["valid-api-key-1"],
          jwt_secret := some "secret", enable_request_logging := true }
        (some "Bearer eyJgood") [("token", "eyJgood")] 0 "gen"
      = SseAuthOutcome.ok (SseConnection.new "gen"
          { authenticated_by := AuthMethod.JwtToken
              { sub := "alice", exp := 99, iat := 1, iss := "iss" },
            subject := "alice" } none none 0) ∧
    authenticate_sse_connection (fun _ _ => none)
        { enable_auth := true, api_keys := ["valid-api-key-1"],
          jwt_secret := some "secret", enable_request_logging := true }
        none [("api_key", "valid-api-key-1")] 0 "gen"
      = SseAuthOutcome.ok (SseConnection.new "gen"
          { authenticated_by := AuthMethod.ApiKey "valid-api-key-1",
            subject := "api_key:valid-ap" } none none 0) ∧
    handle_sse_authentication (fun _ _ => none)
        { enable_auth := true, api_keys := ["valid-api-key-1"],
          jwt_secret := some "secret", enable_request_logging := true }
        (some "Bearer wrong") (some [("api_key", "wrong-key")]) 0 "gen"
        (fun c => c.client_id)
      = MiddlewareOutcome.rejected 401 := by
  refine ⟨?_, ?_, ?_⟩
  · exact sse_auth_precedence.1
      (fun s t => if s = "secret" ∧ t = "eyJgood" then
          some { sub := "alice", exp := 99, iat := 1, iss := "iss" }
        else none)
      { enable_auth := true, api_keys := ["valid-api-key-1"],
        jwt_secret := some "secret", enable_request_logging := true }
      (some "Bearer eyJgood") [("token", "eyJgood")] 0 "gen" _ (by rfl)
  · exact sse_auth_precedence.2.1 (fun _ _ => none)
      { enable_auth := true, api_keys := ["valid-api-key-1"],
        jwt_secret := some "secret", enable_request_logging := true }
      none [("api_key", "valid-api-key-1")] 0 "gen"
      "No Authorization header found" _ (by rfl) (by rfl)
  · exact sse_auth_precedence.2.2.2 String (fun c => c.client_id)
      (fun _ _ => none)
      { enable_auth := true, api_keys := ["valid-api-key-1"],
        jwt_secret := some "secret", enable_request_logging := true }
      (some "Bearer wrong") [("api_key", "wrong-key")] 0 "gen"
      "Invalid API key" "Invalid API key" (by rfl) (by rfl)

/-! ### Claim C6: API-key authentication -/

/-- Claim C6, counterexample: with authentication enabled, a five-byte key
that IS a member of the configured key set makes `authenticate_api_key`
panic on the slice `&api_key[..8]` instead of succeeding, so "succeeds iff
the key is a member of the key set" fails; moreover for a member key of
exactly eight bytes the "redacted" subject contains the entire secret. -/
theorem authenticate_api_key_counterexample :
    (["short", "exact8ky"].contains "short" = true) ∧
    authenticate_api_key
        { enable_auth := true, api_keys := ["short", "exact8ky"],
          jwt_secret := none, enable_request_logging := true } "short"
      = AuthResult.panicked ∧
    authenticate_api_key
        { enable_auth := true, api_keys := ["short", "exact8ky"],
          jwt_secret := none, enable_request_logging := true } "exact8ky"
      = AuthResult.ok { authenticated_by := AuthMethod.ApiKey "exact8ky",
                        subject := "api_key:exact8ky" } := by
  exact ⟨rfl, rfl, rfl⟩

/-- Claim C6, amended: with authentication enabled, a key outside the
configured set always yields an error regardless of its length; a member
key of at least eight bytes succeeds with subject `api_key:` followed by
the first eight bytes of the key (the full secret when the key is exactly
eight bytes long); a member key shorter than eight bytes panics. -/
theorem authenticate_api_key_characterization (config : AuthConfig)
    (key : String) (hAuth : config.enable_auth = true) :
    (config.api_keys.contains key = false →
      authenticate_api_key config key = AuthResult.err "Invalid API key") ∧
    (config.api_keys.contains key = true → 8 ≤ key.length →
      authenticate_api_key config key
        = AuthResult.ok { authenticated_by := AuthMethod.ApiKey key,
                          subject := "api_key:" ++ strTake key 8 }) ∧
    (config.api_keys.contains key = true → key.length < 8 →
      authenticate_api_key config key = AuthResult.panicked) := by
  refine ⟨?_, ?_, ?_⟩
  · intro hMem
    unfold authenticate_api_key
    rw [hAuth, if_neg (by simp), hMem, if_neg (by simp)]
  · intro hMem hLen
    unfold authenticate_api_key
    rw [hAuth, if_neg (by simp), hMem, if_pos rfl, if_neg (by omega)]
  · intro hMem hLen
    unfold authenticate_api_key
    rw [hAuth, if_neg (by simp), hMem, if_pos rfl, if_pos hLen]

/-- Witness for `authenticate_api_key_characterization`: a non-member key
errors and a twelve-byte member key succeeds with an eight-byte redacted
subject. -/
theorem authenticate_api_key_characterization_witness :
    authenticate_api_key
        { enable_auth := true, api_keys := ["test-key-123"],
          jwt_secret := none, enable_request_logging := true } "invalid-key"
      = AuthResult.err "Invalid API key" ∧
    authenticate_api_key
        { enable_auth := true, api_keys := ["test-key-123"],
          jwt_secret := none, enable_request_logging := true } "test-key-123"
      = AuthResult.ok { authenticated_by := AuthMethod.ApiKey "test-key-123",
                        subject := "api_key:test-key" } := by
  refine ⟨?_, ?_⟩
  · exact (authenticate_api_key_characterization
      { enable_auth := true, api_keys := ["test-key-123"],
        jwt_secret := none, enable_request_logging := true }
      "invalid-key" rfl).1 (by rfl)
  · exact (authenticate_api_key_characterization
      { enable_auth := true, api_keys := ["test-key-123"],
        jwt_secret := none, enable_request_logging := true }
      "test-key-123" rfl).2.1 (by rfl) (by decide)

/-! ### Claims C2 and C8: the stdio processing loop -/

/-- Helper: at end-of-input with no shutdown request, every iteration takes
the `Ok(None) → continue` branch, so the loop never breaks. -/
theorem process_messages_eof_aux (handler : McpMessage → Except String (Option McpMessage)) :
    ∀ fuel : Nat, process_messages handler false fuel [] = LoopResult.outOfFuel [] := by
  intro fuel
  induction fuel with
  | zero => rfl
  | succ n ih => simpa [process_messages] using ih

/-- Claim C2 (code bug): when standard input reaches end-of-input the
source maps the zero-byte read to `Ok(None)`, and the loop body answers
`Ok(None)` with `continue`, not `break` — so instead of terminating
normally, the loop re-reads the exhausted input forever (for every
iteration budget it is still running), and `start` never returns. -/
theorem process_messages_spins_on_eof
    (handler : McpMessage → Except String (Option McpMessage)) (fuel : Nat) :
    process_messages handler false fuel [] = LoopResult.outOfFuel [] ∧
    ∀ outs, process_messages handler false fuel [] ≠ LoopResult.finished outs := by
  refine ⟨process_messages_eof_aux handler fuel, ?_⟩
  intro outs h
  rw [process_messages_eof_aux handler fuel] at h
  exact LoopResult.noConfusion h

/-- Helper: prepending a reply prepends it to the collected outputs. -/
theorem LoopResult.consOutput_outputs (r : McpMessage) (l : LoopResult) :
    (l.consOutput r).outputs = r :: l.outputs := by
  cases l <;> rfl

/-- Claim C8: a malformed line between two valid requests is skipped — the
run writes exactly the two valid replies, in order, and the loop is never
terminated by the bad line (it keeps running on the rest of the input). -/
theorem malformed_line_skipped
    (handler : McpMessage → Except String (Option McpMessage))
    (j1 j2 : Json) (bad : InputLine) (m1 m2 r1 r2 : McpMessage)
    (h1 : read_message (InputLine.jsonLine j1) = Except.ok (some m1))
    (h2 : read_message (InputLine.jsonLine j2) = Except.ok (some m2))
    (hBad : ∃ msg, read_message bad = Except.error msg)
    (hr1 : handler m1 = Except.ok (some r1))
    (hr2 : handler m2 = Except.ok (some r2))
    (fuel : Nat) :
    (process_messages handler false (fuel + 3)
        [InputLine.jsonLine j1, bad, InputLine.jsonLine j2]).outputs
      = [r1, r2] := by
  obtain ⟨msg, hbad⟩ := hBad
  show (process_messages handler false (fuel + 2 + 1)
      [InputLine.jsonLine j1, bad, InputLine.jsonLine j2]).outputs = [r1, r2]
  rw [process_messages]
  simp only [Bool.false_eq_true, if_false, h1, hr1, LoopResult.consOutput_outputs]
  show r1 :: (process_messages handler false (fuel + 1 + 1)
      [bad, InputLine.jsonLine j2]).outputs = [r1, r2]
  rw [process_messages]
  simp only [Bool.false_eq_true, if_false, hbad]
  show r1 :: (process_messages handler false (fuel + 0 + 1)
      [InputLine.jsonLine j2]).outputs = [r1, r2]
  rw [process_messages]
  simp only [Bool.false_eq_true, if_false, h2, hr2, LoopResult.consOutput_outputs]
  rw [process_messages_eof_aux handler fuel]
  rfl

/-- Witness for `malformed_line_skipped`: two concrete `tools/list`
requests around a line whose JSON value (the number 5) matches no envelope
variant, against a handler answering `tools/list` with an empty response.
Exactly the two replies come out. -/
theorem malformed_line_skipped_witness :
    (process_messages
        (fun m => match m with
          | McpMessage.ToolsList id =>
              Except.ok (some (McpMessage.Response id none none))
          | _ => Except.ok none)
        false 3
        [InputLine.jsonLine (Json.obj
            [("jsonrpc", Json.str "2.0"), ("id", Json.num 1),
             ("method", Json.str "tools/list")]),
         InputLine.jsonLine (Json.num 5),
         InputLine.jsonLine (Json.obj
            [("jsonrpc", Json.str "2.0"), ("id", Json.num 2),
             ("method", Json.str "tools/list")])]).outputs
      = [McpMessage.Response 1 none none, McpMessage.Response 2 none none] := by
  exact malformed_line_skipped
    (fun m => match m with
      | McpMessage.ToolsList id =>
          Except.ok (some (McpMessage.Response id none none))
      | _ => Except.ok none)
    (Json.obj [("jsonrpc", Json.str "2.0"), ("id", Json.num 1),
               ("method", Json.str "tools/list")])
    (Json.obj [("jsonrpc", Json.str "2.0"), ("id", Json.num 2),
               ("method", Json.str "tools/list")])
    (InputLine.jsonLine (Json.num 5))
    (McpMessage.ToolsList 1) (McpMessage.ToolsList 2)
    (McpMessage.Response 1 none none) (McpMessage.Response 2 none none)
    rfl rfl ⟨_, rfl⟩ rfl rfl 0

/-! ### Claims C9 and C10: the bounded sample window -/

/-- Helper: dropping the head before an append is dropping one more after
it. -/
theorem drop_one_append (A B : List α) (k : Nat) (hA : A ≠ []) :
    (A.drop 1 ++ B).drop k = (A ++ B).drop (k + 1) := by
  cases A with
  | nil => exact absurd rfl hA
  | cons a as1 => simp [List.drop_succ_cons]

/-- Helper: the window update performed by one `add_request`. -/
theorem add_request_response_times_eq (m : RequestMetrics) (now : Nat)
    (ms : ℚ) (err : Bool) :
    (m.add_request now ms err).response_times
      = if (m.response_times ++ [ms]).length > 1000 then
          (m.response_times ++ [ms]).drop 1
        else m.response_times ++ [ms] := rfl

/-- Helper: one `add_request` grows the window by one, capped at 1000. -/
theorem add_request_length (m : RequestMetrics) (now : Nat) (ms : ℚ)
    (err : Bool) (hm : m.response_times.length ≤ 1000) :
    (m.add_request now ms err).response_times.length
      = min (m.response_times.length + 1) 1000 := by
  rw [add_request_response_times_eq]
  by_cases h : (m.response_times ++ [ms]).length > 1000
  · rw [if_pos h]
    simp only [List.length_drop, List.length_append, List.length_cons,
               List.length_nil] at h ⊢
    omega
  · rw [if_neg h]
    simp only [List.length_append, List.length_cons, List.length_nil] at h ⊢
    omega

/-- Helper: after any request sequence, the window holds exactly the most
recent min(total, 1000) samples, in arrival order. -/
theorem runRequests_response_times (l : List (Nat × ℚ × Bool)) :
    ∀ m : RequestMetrics, m.response_times.length ≤ 1000 →
    (runRequests m l).response_times
      = (m.response_times ++ l.map (fun a => a.2.1)).drop
          ((m.response_times.length + l.length) - 1000) := by
  induction l with
  | nil =>
    intro m hm
    simp [runRequests, Nat.sub_eq_zero_of_le hm]
  | cons a rest ih =>
    intro m hm
    show (runRequests (m.add_request a.1 a.2.1 a.2.2) rest).response_times = _
    have hlen := add_request_length m a.1 a.2.1 a.2.2 hm
    have hle : (m.add_request a.1 a.2.1 a.2.2).response_times.length ≤ 1000 := by
      omega
    rw [ih _ hle, hlen, add_request_response_times_eq]
    by_cases h : (m.response_times ++ [a.2.1]).length > 1000
    · rw [if_pos h]
      have hm1000 : m.response_times.length = 1000 := by
        simp only [List.length_append, List.length_cons, List.length_nil] at h
        omega
      have hne : m.response_times ++ [a.2.1] ≠ [] := by simp
      rw [drop_one_append _ _ _ hne]
      simp only [List.map_cons, List.length_cons, List.append_assoc,
                 List.singleton_append]
      rw [(by omega :
        min (m.response_times.length + 1) 1000 + rest.length - 1000 + 1
          = m.response_times.length + (rest.length + 1) - 1000)]
    · rw [if_neg h]
      have hsmall : m.response_times.length ≤ 999 := by
        simp only [List.length_append, List.length_cons, List.length_nil] at h
        omega
      simp only [List.map_cons, List.length_cons, List.append_assoc,
                 List.singleton_append]
      rw [(by omega :
        min (m.response_times.length + 1) 1000 + rest.length - 1000
          = m.response_times.length + (rest.length + 1) - 1000)]

/-- Claim C9: starting from a fresh window, after recording any sequence of
requests the window holds exactly min(total, 1000) samples, and they are
exactly the most recent ones in arrival order (FIFO eviction): the window
is the suffix of the recorded latencies past the first (total − 1000). -/
theorem add_request_window_fifo (l : List (Nat × ℚ × Bool)) :
    (runRequests RequestMetrics.new l).response_times
      = (l.map (fun a => a.2.1)).drop (l.length - 1000) ∧
    (runRequests RequestMetrics.new l).response_times.length
      = min l.length 1000 := by
  have h := runRequests_response_times l RequestMetrics.new
    (by simp [RequestMetrics.new])
  constructor
  · simpa [RequestMetrics.new] using h
  · rw [h]
    simp only [RequestMetrics.new, List.length_nil, List.nil_append,
               List.length_drop, List.length_map, Nat.zero_add]
    omega

/-- Helper: the cumulative error count after a request sequence. -/
theorem runRequests_error_count (l : List (Nat × ℚ × Bool)) :
    ∀ m : RequestMetrics,
    (runRequests m l).error_count
      = m.error_count + (l.filter (fun a => a.2.2)).length := by
  induction l with
  | nil => intro m; simp [runRequests]
  | cons a rest ih =>
    intro m
    show (runRequests (m.add_request a.1 a.2.1 a.2.2) rest).error_count = _
    rw [ih]
    have : (m.add_request a.1 a.2.1 a.2.2).error_count
        = m.error_count + (if a.2.2 then 1 else 0) := by
      unfold RequestMetrics.add_request
      cases h : a.2.2 <;> simp [h]
    rw [this]
    cases h : a.2.2 <;> simp [List.filter, h] <;> omega

/-- Claim C10: after 1100 requests all recorded as errors, the cumulative
error count (1100, never decreased by window eviction) divided by the
capped window length (1000) makes `error_rate_percent` report 110 — a rate
strictly greater than 100 percent. -/
theorem error_rate_exceeds_100 :
    (runRequests RequestMetrics.new
        (List.replicate 1100 (0, (5 : ℚ), true))).error_rate_percent
      = 110 ∧
    (100 : ℚ) < (runRequests RequestMetrics.new
        (List.replicate 1100 (0, (5 : ℚ), true))).error_rate_percent := by
  have hlen : (runRequests RequestMetrics.new
      (List.replicate 1100 (0, (5 : ℚ), true))).response_times.length = 1000 := by
    rw [runRequests_response_times _ RequestMetrics.new (by
      simp only [RequestMetrics.new, List.length_nil]
      omega)]
    simp only [RequestMetrics.new, List.nil_append, List.length_nil,
               List.length_drop, List.length_map, List.length_replicate]
  have herr : (runRequests RequestMetrics.new
      (List.replicate 1100 (0, (5 : ℚ), true))).error_count = 1100 := by
    rw [runRequests_error_count]
    rw [List.filter_replicate]
    simp only [RequestMetrics.new, if_true, List.length_replicate]
  have hne : (runRequests RequestMetrics.new
      (List.replicate 1100 (0, (5 : ℚ), true))).response_times.isEmpty = false := by
    rw [List.isEmpty_eq_false]
    intro hniL
    rw [hniL] at hlen
    simp at hlen
  have hrate : (runRequests RequestMetrics.new
      (List.replicate 1100 (0, (5 : ℚ), true))).error_rate_percent = 110 := by
    unfold RequestMetrics.error_rate_percent
    rw [hne, herr, hlen]
    norm_num
  exact ⟨hrate, by rw [hrate]; norm_num⟩

/-! ### Claim C4: the metrics middleware -/

/-- Helper: updating a custom metric leaves the health monitor alone. -/
theorem increment_custom_metric_health (s : MetricsProviderState)
    (name : String) (value : Nat) :
    (s.increment_custom_metric name value).health_monitor = s.health_monitor := by
  unfold MetricsProviderState.increment_custom_metric
  split <;> rfl

/-- Helper: the recording methods do not change the configuration flag. -/
theorem record_request_enable (s : MetricsProviderState) (now : Nat)
    (ms : ℚ) (err : Bool) :
    (s.record_request now ms err).enable_metrics = s.enable_metrics := by
  unfold MetricsProviderState.record_request
  split <;> rfl

/-- Helper: updating a custom metric does not change the configuration
flag. -/
theorem increment_custom_metric_enable (s : MetricsProviderState)
    (name : String) (value : Nat) :
    (s.increment_custom_metric name value).enable_metrics
      = s.enable_metrics := by
  unfold MetricsProviderState.increment_custom_metric
  split <;> rfl

/-- Helper: with metrics enabled, recording a request keeps the connection
gauge, and bumps the error count exactly when the error flag is set. -/
theorem record_request_components (s : MetricsProviderState) (now : Nat)
    (ms : ℚ) (err : Bool) (hEn : s.enable_metrics = true) :
    (s.record_request now ms err).health_monitor.active_connections
      = s.health_monitor.active_connections ∧
    (s.record_request now ms err).health_monitor.request_metrics.error_count
      = s.health_monitor.request_metrics.error_count
          + (if err = true then 1 else 0) := by
  unfold MetricsProviderState.record_request HealthMonitorState.record_request
    RequestMetrics.add_request
  rw [if_pos hEn]
  refine ⟨rfl, ?_⟩
  cases err <;> simp

/-- Claim C4, counterexample: the middleware has no scoped cleanup — when
the inner handler panics, the panic propagates past the decrement, the
sample recording and the custom-metric updates, leaving the
active-connection gauge at one although it was zero before the request:
the counter is NOT restored on every exit path. -/
theorem metrics_middleware_panic_counterexample :
    metrics_middleware (fun s => (s, HandlerOutcome.panicked)) 5 0 "/mcp"
        { health_monitor := { request_metrics := RequestMetrics.new,
                              total_requests := 0, active_connections := 0 },
          custom_metrics := [], enable_metrics := true }
      = ({ health_monitor := { request_metrics := RequestMetrics.new,
                               total_requests := 0, active_connections := 1 },
           custom_metrics := [], enable_metrics := true },
         HandlerOutcome.panicked) ∧
    (1 : Nat) ≠ 0 := by
  exact ⟨rfl, by decide⟩


/-- Helper: the custom-metric block leaves the health monitor alone. -/
theorem tool_metrics_custom_health (s : MetricsProviderState) (path : String)
    (e : Bool) :
    (tool_metrics_custom s path e).health_monitor = s.health_monitor := by
  unfold tool_metrics_custom
  split
  · split
    · rw [increment_custom_metric_health, increment_custom_metric_health]
    · rw [increment_custom_metric_health]
  · rfl

/-- Helper: the custom-metric block keeps the configuration flag. -/
theorem tool_metrics_custom_enable (s : MetricsProviderState) (path : String)
    (e : Bool) :
    (tool_metrics_custom s path e).enable_metrics = s.enable_metrics := by
  unfold tool_metrics_custom
  split
  · split
    · rw [increment_custom_metric_enable, increment_custom_metric_enable]
    · rw [increment_custom_metric_enable]
  · rfl

/-- Helper: the decrement with metrics enabled wraps the gauge down by one
and leaves the request metrics alone. -/
theorem decrement_active_spec (t : MetricsProviderState)
    (hEn : t.enable_metrics = true) :
    t.decrement_active_connections.health_monitor.active_connections
      = (if t.health_monitor.active_connections = 0 then 2 ^ 64 - 1
         else t.health_monitor.active_connections - 1) ∧
    t.decrement_active_connections.health_monitor.request_metrics
      = t.health_monitor.request_metrics := by
  unfold MetricsProviderState.decrement_active_connections
    HealthMonitorState.decrement_active_connections
  rw [if_pos hEn]
  exact ⟨rfl, rfl⟩

/-- Claim C4, amended: with metrics enabled, on every NORMAL completion of
the inner handler the middleware restores the active-connection gauge to
its pre-request value (increment on entry, decrement on the return path)
and bumps the error count of the recorded sample exactly when the response
status is 4xx or 5xx; but when the inner handler panics the wrapping does
not execute — the source installs no scoped cleanup, so the panic
propagates before the decrement and the gauge stays elevated (see the
counterexample). -/
theorem metrics_middleware_balanced
    (next : MetricsProviderState → MetricsProviderState × HandlerOutcome)
    (s s2 : MetricsProviderState) (elapsed_ms : ℚ) (now : Nat)
    (path : String) (resp : HttpResponse)
    (hEnable : s.enable_metrics = true)
    (hBound : s.health_monitor.active_connections < 2 ^ 64)
    (hRun : next s.increment_active_connections = (s2, HandlerOutcome.ok resp))
    (hEnable2 : s2.enable_metrics = true)
    (hActive : s2.health_monitor.active_connections
      = s.increment_active_connections.health_monitor.active_connections) :
    (metrics_middleware next elapsed_ms now path s).2
      = HandlerOutcome.ok resp ∧
    (metrics_middleware next elapsed_ms now path s).1.health_monitor.active_connections
      = s.health_monitor.active_connections ∧
    (metrics_middleware next elapsed_ms now path s).1.health_monitor.request_metrics.error_count
      = s2.health_monitor.request_metrics.error_count
          + (if (400 ≤ resp.status ∧ resp.status ≤ 499) ∨
                (500 ≤ resp.status ∧ resp.status ≤ 599) then 1 else 0) := by
  have hmain : metrics_middleware next elapsed_ms now path s
      = ((tool_metrics_custom
            (s2.record_request now elapsed_ms (status_is_error resp.status))
            path (status_is_error resp.status)).decrement_active_connections,
         HandlerOutcome.ok resp) := by
    unfold metrics_middleware
    simp only [hRun]
  rw [hmain]
  have h3 := record_request_components s2 now elapsed_ms
    (status_is_error resp.status) hEnable2
  have h4en : (tool_metrics_custom
      (s2.record_request now elapsed_ms (status_is_error resp.status))
      path (status_is_error resp.status)).enable_metrics = true := by
    rw [tool_metrics_custom_enable, record_request_enable]
    exact hEnable2
  have h4hm := tool_metrics_custom_health
    (s2.record_request now elapsed_ms (status_is_error resp.status))
    path (status_is_error resp.status)
  have h5 := decrement_active_spec _ h4en
  have hIncr : s.increment_active_connections.health_monitor.active_connections
      = (s.health_monitor.active_connections + 1) % 2 ^ 64 := by
    unfold MetricsProviderState.increment_active_connections
      HealthMonitorState.increment_active_connections
    rw [if_pos hEnable]
  refine ⟨rfl, ?_, ?_⟩
  · rw [h5.1, h4hm, h3.1, hActive, hIncr]
    split
    · omega
    · omega
  · rw [h5.2, h4hm, h3.2]
    unfold status_is_error
    simp only [decide_eq_true_eq]
/-- Witness for `metrics_middleware_balanced`: a handler that returns a 500
response without touching the metrics state; the middleware hands the
response through, the gauge returns to zero, and the sample is counted as
an error. -/
theorem metrics_middleware_balanced_witness :
    (metrics_middleware (fun t => (t, HandlerOutcome.ok { status := 500 }))
        7 0 "/mcp/tools/echo"
        { health_monitor := { request_metrics := RequestMetrics.new,
                              total_requests := 0, active_connections := 0 },
          custom_metrics := [], enable_metrics := true }).2
      = HandlerOutcome.ok { status := 500 } ∧
    (metrics_middleware (fun t => (t, HandlerOutcome.ok { status := 500 }))
        7 0 "/mcp/tools/echo"
        { health_monitor := { request_metrics := RequestMetrics.new,
                              total_requests := 0, active_connections := 0 },
          custom_metrics := [], enable_metrics := true }).1.health_monitor.active_connections
      = 0 ∧
    (metrics_middleware (fun t => (t, HandlerOutcome.ok { status := 500 }))
        7 0 "/mcp/tools/echo"
        { health_monitor := { request_metrics := RequestMetrics.new,
                              total_requests := 0, active_connections := 0 },
          custom_metrics := [], enable_metrics := true }).1.health_monitor.request_metrics.error_count
      = RequestMetrics.new.error_count
          + (if (400 ≤ 500 ∧ 500 ≤ 499) ∨ (500 ≤ 500 ∧ 500 ≤ 599)
             then 1 else 0) := by
  exact metrics_middleware_balanced
    (fun t => (t, HandlerOutcome.ok { status := 500 }))
    { health_monitor := { request_metrics := RequestMetrics.new,
                          total_requests := 0, active_connections := 0 },
      custom_metrics := [], enable_metrics := true }
    ({ health_monitor := { request_metrics := RequestMetrics.new,
                           total_requests := 0, active_connections := 0 },
       custom_metrics := [], enable_metrics := true } :
        MetricsProviderState).increment_active_connections
    7 0 "/mcp/tools/echo" { status := 500 }
    rfl (by decide) rfl rfl rfl
